import Mathlib

/-!
# SuperTuxKart: the asset download dialog and the soccer AI

A shallow embedding of `states_screens/dialogs/download_assets.cpp` and of
`karts/controller/soccer_ai.cpp`.

Conventions of the embedding:

* C++ `float` values are read as rational numbers (`ℚ`); rounding and NaN are
  not modelled, a literal such as `99999.9f` is read as its decimal value.
* A pointer member is an `Option`; dereferencing `NULL` makes the embedded
  function return `none`.
* Calls into the engine that have no observable result in these two files
  (`dismiss()`, `ExtractMobileAssets::reinit()`, `new MessageDialog(..)`,
  `collectItemInArena(..)`) are recorded in the state, so that a theorem can
  say whether they happened.
* Engine functions whose code is elsewhere (`_()`, `checkPosition`,
  `length_2d`, `ExtractMobileAssets::extract`, ...) are fields of an
  environment record and every theorem holds for all of them.
-/

namespace STK

/-! ## File manager -/

/-- Modelled from the spec: the file manager (`io/file_manager`) is not among
the sources. A file system is the set of paths that currently exist, files and
directories alike; the contents of a directory are not modelled. -/
structure FileSystem where
  present : String → Bool

/-- Modelled from the spec: `FileManager::fileExists`, the path exists. -/
def FileSystem.fileExists (fs : FileSystem) (path : String) : Bool :=
  fs.present path

/-- Modelled from the spec: `FileManager::removeFile`, the path is removed
and no other path changes. -/
def FileSystem.removeFile (fs : FileSystem) (path : String) : FileSystem :=
  { present := fun p => if p = path then false else fs.present p }

/-- Modelled from the spec: `FileManager::removeDirectory`, "the download
directory [is] removed": the path of the directory is removed and no other
path changes. -/
def FileSystem.removeDirectory (fs : FileSystem) (path : String) : FileSystem :=
  { present := fun p => if p = path then false else fs.present p }

/-! ## Requests -/

/-- Modelled from the spec: the base class `Online::HTTPRequest`
(`online/http_request`) is not among the sources. A request is the record of
what its accessors return: `getFileName()`, the manage-memory flag written by
`setManageMemory`, `isCancelled()`, `getProgress()`, `isDone()` and
`hadDownloadError()`. -/
structure HTTPRequest where
  m_filename : String
  m_manage_memory : Bool
  m_cancel : Bool
  m_progress : ℚ
  m_done : Bool
  m_download_error : Bool

/-- The class `DownloadAssetsRequest : public HTTPRequest`. -/
structure DownloadAssetsRequest extends HTTPRequest where
  m_extraction_error : Bool

namespace DownloadAssetsRequest

def getFileName (r : DownloadAssetsRequest) : String := r.m_filename

def isCancelled (r : DownloadAssetsRequest) : Bool := r.m_cancel

def getProgress (r : DownloadAssetsRequest) : ℚ := r.m_progress

def isDone (r : DownloadAssetsRequest) : Bool := r.m_done

def hadDownloadError (r : DownloadAssetsRequest) : Bool := r.m_download_error

/-- Modelled from the spec: `Request::setManageMemory`, the request is marked
"for deferred memory cleanup by an external request manager". -/
def setManageMemory (r : DownloadAssetsRequest) (m : Bool) : DownloadAssetsRequest :=
  { r with m_manage_memory := m }

/-- Modelled from the spec: `Request::cancel`, the request becomes cancelled. -/
def cancel (r : DownloadAssetsRequest) : DownloadAssetsRequest :=
  { r with m_cancel := true }

/-- `bool hadError() const { return hadDownloadError() || m_extraction_error; }` -/
def hadError (r : DownloadAssetsRequest) : Bool :=
  r.hadDownloadError || r.m_extraction_error

/-- The constructor `DownloadAssetsRequest()`: `base` is the state in which the
constructor of `HTTPRequest` (with `setURL` and `setDownloadAssetsRequest`)
leaves the base object; the constructor body sets `m_extraction_error = true`. -/
def construct (base : HTTPRequest) : DownloadAssetsRequest :=
  { base with m_extraction_error := true }

end DownloadAssetsRequest

/-- The engine around the dialog: translation `_()`,
`file_manager->getSTKAssetsDownloadDir()`, the base class
`HTTPRequest::afterOperation`, `ExtractMobileAssets::extract`, and the base
object a newly constructed `HTTPRequest("stk-assets.zip", false, 5)` holds. -/
structure Engine where
  translate : String → String
  getSTKAssetsDownloadDir : String
  httpAfterOperation : HTTPRequest → FileSystem → HTTPRequest × FileSystem
  extract : String → String → FileSystem → Bool × FileSystem
  newHTTPRequest : HTTPRequest

/-- What `afterOperation` leaves behind: the request, the file system, and the
calls of `ExtractMobileAssets::extract` it made (zip file, target directory). -/
structure OperationResult where
  request : DownloadAssetsRequest
  fs : FileSystem
  extract_calls : List (String × String)

/-- The override `DownloadAssetsRequest::afterOperation`. -/
def DownloadAssetsRequest.afterOperation (e : Engine) (r : DownloadAssetsRequest)
    (fs : FileSystem) : OperationResult :=
  let b := e.httpAfterOperation r.toHTTPRequest fs
  let r1 : DownloadAssetsRequest := { r with toHTTPRequest := b.1 }
  if r1.isCancelled then
    { request := r1, fs := b.2, extract_calls := [] }
  else
    let x := e.extract r1.getFileName e.getSTKAssetsDownloadDir b.2
    { request := { r1 with m_extraction_error := !x.1 }, fs := x.2,
      extract_calls := [(r1.getFileName, e.getSTKAssetsDownloadDir)] }

/-- The destructor `~DownloadAssetsRequest`, as a function on the file system. -/
def DownloadAssetsRequest.destroy (e : Engine) (r : DownloadAssetsRequest)
    (fs : FileSystem) : FileSystem :=
  if r.isCancelled then
    let zip := r.getFileName
    let zip_part := zip ++ ".part"
    let fs1 := if fs.fileExists zip then fs.removeFile zip else fs
    let fs2 := if fs1.fileExists zip_part then fs1.removeFile zip_part else fs1
    fs2.removeDirectory e.getSTKAssetsDownloadDir
  else fs

/-! ## The dialog -/

/-- `GUIEngine::EventPropagation`, the two values used here. -/
inductive EventPropagation where
  | EVENT_LET
  | EVENT_BLOCK
  deriving DecidableEq, Repr

/-- The dialog `DownloadAssets` with the widgets it drives and the part of the
world it acts on.

* `m_download_request`: the pointer member together with its pointee;
* `progress_value`, `progress_visible`: the widget `m_progress`;
* `actions_visible`: the ribbon "actions";
* `install_label`: the label of `m_install_button`;
* `description_text`: the text of the bubble "description";
* `dismiss_calls`, `reinit_calls`: how often `dismiss()` and
  `ExtractMobileAssets::reinit()` were called;
* `message_dialogs`: the texts of the `MessageDialog`s created, newest first;
* `unreferenced`: request objects that are still allocated although the dialog
  no longer points to them (newest first);
* `fs`: the file system. -/
structure DownloadAssets where
  m_download_request : Option DownloadAssetsRequest
  progress_value : ℚ
  progress_visible : Bool
  actions_visible : Bool
  install_label : String
  description_text : String
  dismiss_calls : Nat
  reinit_calls : Nat
  message_dialogs : List String
  unreferenced : List DownloadAssetsRequest
  fs : FileSystem

def MSG_DOWNLOAD_FAILED : String :=
  "Failed to download assets, check your storage space or internet connection and try again later."

def MSG_ADDON_FAILED : String := "Sorry, downloading the add-on failed"

def MSG_TRY_AGAIN : String := "Try again"

namespace DownloadAssets

/-- `ModalDialog::dismiss()`. -/
def dismiss (d : DownloadAssets) : DownloadAssets :=
  { d with dismiss_calls := d.dismiss_calls + 1 }

/-- `DownloadAssets::startDownload`: `queue()` hands the new request to the
request manager, which does not change the dialog. A request the member still
pointed to stays allocated. -/
def startDownload (e : Engine) (d : DownloadAssets) : DownloadAssets :=
  { d with
    m_download_request := some (DownloadAssetsRequest.construct e.newHTTPRequest),
    unreferenced := d.m_download_request.toList ++ d.unreferenced }

/-- `DownloadAssets::stopDownload`. -/
def stopDownload (d : DownloadAssets) : DownloadAssets :=
  match d.m_download_request with
  | some r =>
    { d with
      unreferenced := (r.setManageMemory true).cancel :: d.unreferenced,
      m_download_request := none }
  | none => d

/-- `DownloadAssets::onEscapePressed`, with the value it returns. -/
def onEscapePressed (d : DownloadAssets) : DownloadAssets × Bool :=
  ((stopDownload d).dismiss, true)

/-- `DownloadAssets::doInstall`; `none` when `m_download_request` is `NULL`,
which the function dereferences. -/
def doInstall (e : Engine) (d : DownloadAssets) : Option DownloadAssets :=
  match d.m_download_request with
  | none => none
  | some r =>
    let msg : String := if r.hadError then e.translate MSG_DOWNLOAD_FAILED else ""
    -- delete m_download_request; m_download_request = NULL;
    let d1 := { d with fs := r.destroy e d.fs, m_download_request := none }
    let d2 := if msg ≠ "" then { d1 with description_text := msg } else d1
    if msg ≠ "" then
      some { d2 with
        progress_visible := false,
        actions_visible := true,
        install_label := e.translate MSG_TRY_AGAIN }
    else
      some { d2.dismiss with reinit_calls := d2.reinit_calls + 1 }

/-- `DownloadAssets::onUpdate`. -/
def onUpdate (e : Engine) (d : DownloadAssets) : Option DownloadAssets :=
  match d.m_download_request with
  | none => some d
  | some r =>
    let progress := r.getProgress
    let d1 := { d with progress_value := progress * 99 }
    if progress < 0 then
      let d2 := { d1 with progress_visible := false }
      let d3 := d2.dismiss
      some { d3 with message_dialogs := e.translate MSG_ADDON_FAILED :: d3.message_dialogs }
    else if r.isDone then
      doInstall e d1
    else
      some d1

/-- `DownloadAssets::processEvent`; `selection` is what
`actions_ribbon->getSelectionIDString(PLAYER_ID_GAME_MASTER)` returns. -/
def processEvent (e : Engine) (event_source selection : String) (d : DownloadAssets) :
    DownloadAssets × EventPropagation :=
  if event_source = "actions" then
    if selection = "back" then
      ((stopDownload d).dismiss, EventPropagation.EVENT_BLOCK)
    else if selection = "install" then
      let d1 := { d with progress_value := 0, progress_visible := true, actions_visible := false }
      (startDownload e d1, EventPropagation.EVENT_BLOCK)
    else (d, EventPropagation.EVENT_LET)
  else (d, EventPropagation.EVENT_LET)

end DownloadAssets

/-! ## The soccer AI -/

/-- Modelled from the spec: `Vec3` (`utils/vec3`) is not among the sources; a
vector is its three coordinates. -/
structure Vec3 where
  x : ℚ
  y : ℚ
  z : ℚ
  deriving DecidableEq

instance : Add Vec3 := ⟨fun a b => ⟨a.x + b.x, a.y + b.y, a.z + b.z⟩⟩

instance : Sub Vec3 := ⟨fun a b => ⟨a.x - b.x, a.y - b.y, a.z - b.z⟩⟩

/-- The struct `posData` that `ArenaAI::checkPosition` fills in. -/
structure posData where
  behind : Bool
  on_side : Bool
  angle : ℚ
  distance : ℚ

/-- What the soccer AI reads of an `AbstractKart`: `getWorldKartId()`,
`isEliminated()`, `getXYZ()`, `getPowerup()->getType()` and
`getAttachment()->getType()` (enumeration values as numbers). -/
structure AbstractKart where
  getWorldKartId : Nat
  isEliminated : Bool
  getXYZ : Vec3
  powerupType : Nat
  attachmentType : Nat

/-- What the soccer AI reads of the `SoccerWorld`: the karts in index order
(`getNumKarts()` is their number, `getKart(i)` the i-th), `getKartTeam(id)`
(the enumeration value as a number), `getKartNode(id)`, `getBallPosition()`,
`getBallNode()` and `getGoalNode(team)`. -/
structure SoccerWorld where
  karts : List AbstractKart
  getKartTeam : Nat → Int
  getKartNode : Nat → Int
  getBallPosition : Vec3
  getBallNode : Int
  getGoalNode : Bool → Int

def SoccerWorld.getNumKarts (w : SoccerWorld) : Nat := w.karts.length

/-- `World::getKart(i)`; `none` when the index is out of range. -/
def SoccerWorld.getKart (w : SoccerWorld) (i : Nat) : Option AbstractKart := w.karts[i]?

/-- The controller `SoccerAI`: the members these functions read and write, and
`collect_item_calls`, the number of calls of `collectItemInArena` made. -/
structure SoccerAI where
  m_kart : AbstractKart
  m_world : SoccerWorld
  m_cur_team : Bool
  m_closest_kart : Option AbstractKart
  m_closest_kart_node : Int
  m_closest_kart_point : Vec3
  m_closest_kart_pos_data : posData
  m_target_point : Vec3
  m_target_node : Int
  collect_item_calls : Nat

/-- The engine around the soccer AI: `Vec3::length_2d`,
`ArenaAI::checkPosition` seen from a kart (the position data and the local
coordinates it writes), the transform `kart->getTrans()`,
`NavMesh::get()->getNavPoly(n).getCenter()`, the two outputs of
`ArenaAI::collectItemInArena`, the base class resets, and the enumeration
values `PowerupManager::POWERUP_NOTHING` and `Attachment::ATTACH_SWATTER`. -/
structure ArenaEngine where
  length_2d : Vec3 → ℚ
  checkPosition : AbstractKart → Vec3 → posData × Vec3
  getTrans : AbstractKart → Vec3 → Vec3
  getNavPolyCenter : Int → Vec3
  collectItemInArena : SoccerAI → Vec3 × Int
  baseReset : SoccerAI → SoccerAI
  POWERUP_NOTHING : Nat
  ATTACH_SWATTER : Nat

namespace SoccerAI

/-- `SoccerAI::reset`. -/
def reset (e : ArenaEngine) (ai : SoccerAI) : SoccerAI :=
  let ai1 := e.baseReset ai
  { ai1 with m_cur_team := if ai1.m_kart.getWorldKartId % 2 = 0 then true else false }

/-- The body of the `for` loop of `findClosestKart`, run over the karts from
index `i` on; `distance` and `closest_kart_num` are the two local variables. -/
def findClosestKartLoop (e : ArenaEngine) (ai : SoccerAI) :
    List AbstractKart → Nat → ℚ → Nat → ℚ × Nat
  | [], _, distance, closest_kart_num => (distance, closest_kart_num)
  | kart :: rest, i, distance, closest_kart_num =>
    if kart.isEliminated then
      findClosestKartLoop e ai rest (i + 1) distance closest_kart_num
    else if kart.getWorldKartId = ai.m_kart.getWorldKartId then
      findClosestKartLoop e ai rest (i + 1) distance closest_kart_num
    else if ai.m_world.getKartTeam kart.getWorldKartId
        = ai.m_world.getKartTeam ai.m_kart.getWorldKartId then
      findClosestKartLoop e ai rest (i + 1) distance closest_kart_num
    else
      let d := kart.getXYZ - ai.m_kart.getXYZ
      if e.length_2d d ≤ distance then
        findClosestKartLoop e ai rest (i + 1) (e.length_2d d) i
      else
        findClosestKartLoop e ai rest (i + 1) distance closest_kart_num

/-- The value of `closest_kart_num` when the loop of `findClosestKart` ends. -/
def closestKartNum (e : ArenaEngine) (ai : SoccerAI) : Nat :=
  (findClosestKartLoop e ai ai.m_world.karts 0 (999999 / 10) 0).2

/-- `SoccerAI::findClosestKart`; `none` when `getKart(closest_kart_num)` is out
of range. -/
def findClosestKart (e : ArenaEngine) (ai : SoccerAI) (_use_difficulty : Bool) :
    Option SoccerAI :=
  let closest_kart_num := closestKartNum e ai
  match ai.m_world.getKart closest_kart_num with
  | none => none
  | some closest_kart =>
    some { ai with
      m_closest_kart_node := ai.m_world.getKartNode closest_kart_num,
      m_closest_kart_point := closest_kart.getXYZ,
      m_closest_kart := ai.m_world.getKart closest_kart_num,
      m_closest_kart_pos_data := (e.checkPosition ai.m_kart closest_kart.getXYZ).1 }

/-- `SoccerAI::correctBallPosition`. -/
def correctBallPosition (e : ArenaEngine) (ai : SoccerAI) (orig_pos : Vec3) : Vec3 :=
  let ball := e.checkPosition ai.m_kart orig_pos
  let ball_pos := ball.1
  let ball_lc := ball.2
  let goal_pos :=
    (e.checkPosition ai.m_kart (e.getNavPolyCenter (ai.m_world.getGoalNode (!ai.m_cur_team)))).1
  if goal_pos.behind then
    let ball_lc1 :=
      if goal_pos.on_side then ball_lc + ⟨2, 0, 2⟩
      else ball_lc - ⟨2, 0, 0⟩ + ⟨0, 0, 2⟩
    e.getTrans ai.m_kart ball_lc1
  else if ball_pos.distance < 3 ∧ !ball_pos.behind ∧ !goal_pos.behind then
    if goal_pos.angle < 1 / 2 then orig_pos
    else
      let ball_lc1 :=
        if goal_pos.on_side then ball_lc + ⟨1, 0, 1⟩
        else ball_lc - ⟨1, 0, 0⟩ + ⟨0, 0, 1⟩
      e.getTrans ai.m_kart ball_lc1
  else orig_pos

/-- `SoccerAI::findTarget`. -/
def findTarget (e : ArenaEngine) (ai : SoccerAI) : SoccerAI :=
  if e.length_2d (ai.m_world.getBallPosition - ai.m_kart.getXYZ) > 10 ∧
      (ai.m_kart.powerupType = e.POWERUP_NOTHING ∧
       ai.m_kart.attachmentType ≠ e.ATTACH_SWATTER) then
    let t := e.collectItemInArena ai
    { ai with
      m_target_point := t.1,
      m_target_node := t.2,
      collect_item_calls := ai.collect_item_calls + 1 }
  else
    { ai with
      m_target_node := ai.m_world.getBallNode,
      m_target_point := correctBallPosition e ai ai.m_world.getBallPosition }

/-- A kart the loop of `findClosestKart` does not skip: not eliminated, not
the AI's own kart, not of the AI's team. -/
def eligible (ai : SoccerAI) (kart : AbstractKart) : Prop :=
  kart.isEliminated = false ∧
  kart.getWorldKartId ≠ ai.m_kart.getWorldKartId ∧
  ai.m_world.getKartTeam kart.getWorldKartId
    ≠ ai.m_world.getKartTeam ai.m_kart.getWorldKartId

instance (ai : SoccerAI) (kart : AbstractKart) : Decidable (SoccerAI.eligible ai kart) := by
  unfold SoccerAI.eligible
  infer_instance

/-- The 2D distance from the AI's kart to `kart`, as the loop computes it. -/
def kartDistance (e : ArenaEngine) (ai : SoccerAI) (kart : AbstractKart) : ℚ :=
  e.length_2d (kart.getXYZ - ai.m_kart.getXYZ)

/-- The case definition of `correctBallPosition` as the specification words
it: `goal` is the position data of the centre of the goal of team
`!m_cur_team`, `ball` the position data of the ball and `ball_lc` the ball in
kart-local coordinates. -/
def correctBallPositionSpec (e : ArenaEngine) (ai : SoccerAI) (orig_pos : Vec3) : Vec3 :=
  let goal :=
    (e.checkPosition ai.m_kart (e.getNavPolyCenter (ai.m_world.getGoalNode (!ai.m_cur_team)))).1
  let ball := (e.checkPosition ai.m_kart orig_pos).1
  let ball_lc := (e.checkPosition ai.m_kart orig_pos).2
  if goal.behind = true then
    if goal.on_side = true then e.getTrans ai.m_kart (ball_lc + ⟨2, 0, 2⟩)
    else e.getTrans ai.m_kart (ball_lc + ⟨-2, 0, 2⟩)
  else if ball.distance < 3 ∧ ball.behind = false ∧ goal.angle ≥ 1 / 2 then
    if goal.on_side = true then e.getTrans ai.m_kart (ball_lc + ⟨1, 0, 1⟩)
    else e.getTrans ai.m_kart (ball_lc + ⟨-1, 0, 1⟩)
  else orig_pos

end SoccerAI

/-- The state of the loop of `findClosestKart` before index `k` is visited,
with `distance = D` and `closest_kart_num = c`: either a kart was taken, and
then `c` is the highest index below `k` among the karts that are not skipped
and whose distance is the least, `D` being that distance; or no kart was taken
and the two variables still have their initial values. -/
def SoccerAI.LoopInv (e : ArenaEngine) (ai : SoccerAI) (k : Nat) (D : ℚ) (c : Nat) : Prop :=
  ((∃ kart, ai.m_world.getKart c = some kart ∧ SoccerAI.eligible ai kart ∧
        SoccerAI.kartDistance e ai kart = D) ∧
    c < k ∧ D ≤ 999999 / 10 ∧
    (∀ j kart, j < k → ai.m_world.getKart j = some kart → SoccerAI.eligible ai kart →
      D ≤ SoccerAI.kartDistance e ai kart) ∧
    (∀ j kart, j < k → ai.m_world.getKart j = some kart → SoccerAI.eligible ai kart →
      SoccerAI.kartDistance e ai kart = D → j ≤ c)) ∨
  (D = 999999 / 10 ∧ c = 0 ∧
    ∀ j kart, j < k → ai.m_world.getKart j = some kart → SoccerAI.eligible ai kart →
      999999 / 10 < SoccerAI.kartDistance e ai kart)

/-! ## Concrete states -/

/-- An engine without translations, whose extraction succeeds and whose base
class `afterOperation` changes nothing. -/
def plainEngine : Engine where
  translate := fun s => s
  getSTKAssetsDownloadDir := "stk-assets"
  httpAfterOperation := fun r fs => (r, fs)
  extract := fun _ _ fs => (true, fs)
  newHTTPRequest :=
    { m_filename := "stk-assets.zip", m_manage_memory := false, m_cancel := false,
      m_progress := 0, m_done := false, m_download_error := false }

/-- A file system holding a partial download and the download directory. -/
def partialDownloadFS : FileSystem where
  present := fun p => p = "stk-assets.zip.part" || p = "stk-assets" || p = "config.xml"

/-- A request half way through the download. -/
def runningRequest : DownloadAssetsRequest :=
  { DownloadAssetsRequest.construct plainEngine.newHTTPRequest with m_progress := 1 / 2 }

/-- A request whose download failed: the progress is negative. -/
def failedRequest : DownloadAssetsRequest :=
  { DownloadAssetsRequest.construct plainEngine.newHTTPRequest with
    m_progress := -1, m_done := true, m_download_error := true }

/-- A request that was downloaded but could not be extracted. -/
def unextractedRequest : DownloadAssetsRequest :=
  { DownloadAssetsRequest.construct plainEngine.newHTTPRequest with
    m_progress := 1, m_done := true }

/-- A request that was downloaded and extracted. -/
def finishedRequest : DownloadAssetsRequest :=
  { DownloadAssetsRequest.construct plainEngine.newHTTPRequest with
    m_progress := 1, m_done := true, m_extraction_error := false }

/-- A request that was cancelled. -/
def cancelledRequest : DownloadAssetsRequest :=
  { DownloadAssetsRequest.construct plainEngine.newHTTPRequest with
    m_progress := 1 / 2, m_cancel := true, m_manage_memory := true }

/-- The dialog after "install" was pressed, holding the request `r`. -/
def downloadingDialog (r : Option DownloadAssetsRequest) : DownloadAssets where
  m_download_request := r
  progress_value := 0
  progress_visible := true
  actions_visible := false
  install_label := "Install"
  description_text := "SuperTuxKart will download full assets"
  dismiss_calls := 0
  reinit_calls := 0
  message_dialogs := []
  unreferenced := []
  fs := partialDownloadFS

/-- An engine for karts that look along the z axis without rotation: local
coordinates are relative to the position of the kart, a point is behind when
its local z is negative and on the side when its local x is negative. The 2D
length is exact for vectors along the x axis or the z axis, where the concrete
karts below are placed. -/
def axisEngine : ArenaEngine where
  length_2d := fun v =>
    if v.z = 0 then |v.x| else if v.x = 0 then |v.z| else Rat.sqrt (v.x * v.x + v.z * v.z)
  checkPosition := fun kart p =>
    ({ behind := decide ((p - kart.getXYZ).z < 0),
       on_side := decide ((p - kart.getXYZ).x < 0),
       angle := 0,
       distance := |(p - kart.getXYZ).x| + |(p - kart.getXYZ).z| },
     p - kart.getXYZ)
  getTrans := fun kart v => v + kart.getXYZ
  getNavPolyCenter := fun n => ⟨0, 0, n⟩
  collectItemInArena := fun _ => (⟨0, 0, 0⟩, 0)
  baseReset := fun ai => ai
  POWERUP_NOTHING := 0
  ATTACH_SWATTER := 3

/-- A kart on the x axis, holding no power-up and no swatter. -/
def kartAt (id : Nat) (x : ℚ) : AbstractKart where
  getWorldKartId := id
  isEliminated := false
  getXYZ := ⟨x, 0, 0⟩
  powerupType := 0
  attachmentType := 0

/-- The controller of the kart `kart` in the world `w`, before its first
update. -/
def controllerOf (kart : AbstractKart) (w : SoccerWorld) : SoccerAI where
  m_kart := kart
  m_world := w
  m_cur_team := if kart.getWorldKartId % 2 = 0 then true else false
  m_closest_kart := none
  m_closest_kart_node := 0
  m_closest_kart_point := ⟨0, 0, 0⟩
  m_closest_kart_pos_data := { behind := false, on_side := false, angle := 0, distance := 0 }
  m_target_point := ⟨0, 0, 0⟩
  m_target_node := 0
  collect_item_calls := 0

/-- A world whose two karts are both of team 0; the ball is 20 away from the
first kart, the goals are at z = -30 (team `false`) and z = 30 (team `true`). -/
def oneTeamWorld : SoccerWorld where
  karts := [kartAt 0 0, kartAt 1 5]
  getKartTeam := fun _ => 0
  getKartNode := fun id => id
  getBallPosition := ⟨20, 0, 0⟩
  getBallNode := 7
  getGoalNode := fun team => if team then 30 else -30

/-- A world of six karts, the teams alternating with the kart id: seen from
kart 0, karts 1 and 3 are both 5 away, kart 5 is 9 away, and kart 2, of the
team of kart 0, is 1 away. -/
def sixKartWorld : SoccerWorld where
  karts := [kartAt 0 0, kartAt 1 5, kartAt 2 1, kartAt 3 (-5), kartAt 4 2, kartAt 5 9]
  getKartTeam := fun id => id % 2
  getKartNode := fun id => id
  getBallPosition := ⟨20, 0, 0⟩
  getBallNode := 7
  getGoalNode := fun team => if team then 30 else -30

end STK

/-! ## Theorems: the download dialog -/

namespace STK

open DownloadAssets

/-- C1: when the dialog holds a request whose `hadError()` is true (download
error or extraction error), `doInstall` returns with the dialog left open
(no call of `dismiss`, no call of `ExtractMobileAssets::reinit`), the
description set to the translated "Failed to download assets ..." message, the
progress bar hidden, the ribbon "actions" visible, the install button labelled
with the translated "Try again", and `m_download_request` `NULL`. The
translation `_()` of the message is taken to be a non-empty text. -/
theorem doInstall_error_path (e : Engine) (d : DownloadAssets) (r : DownloadAssetsRequest)
    (hreq : d.m_download_request = some r) (herr : r.hadError = true)
    (htr : e.translate MSG_DOWNLOAD_FAILED ≠ "") :
    ∃ d1, doInstall e d = some d1 ∧
      d1.dismiss_calls = d.dismiss_calls ∧
      d1.reinit_calls = d.reinit_calls ∧
      d1.description_text = e.translate MSG_DOWNLOAD_FAILED ∧
      d1.progress_visible = false ∧
      d1.actions_visible = true ∧
      d1.install_label = e.translate MSG_TRY_AGAIN ∧
      d1.m_download_request = none := by
  simp [doInstall, hreq, herr, htr]

/-- The error path of `doInstall` on a request that was downloaded but not extracted. -/
theorem doInstall_error_path_witness :
    ∃ d1, doInstall plainEngine (downloadingDialog (some unextractedRequest)) = some d1 ∧
      d1.dismiss_calls = 0 ∧
      d1.reinit_calls = 0 ∧
      d1.description_text = MSG_DOWNLOAD_FAILED ∧
      d1.progress_visible = false ∧
      d1.actions_visible = true ∧
      d1.install_label = "Try again" ∧
      d1.m_download_request = none :=
  doInstall_error_path plainEngine (downloadingDialog (some unextractedRequest))
    unextractedRequest rfl rfl (by simp [plainEngine, MSG_DOWNLOAD_FAILED])

/-- C2, as stated, fails: with a request whose progress is -1 the poll in
`onUpdate` dismisses the dialog and opens a message dialog; the ribbon
"actions" stays hidden, the install button keeps its label and the description
is not replaced by the retry message, so the outcome is not that of the error
path of `doInstall`. -/
theorem onUpdate_http_failure_not_retry :
    (downloadingDialog (some failedRequest)).m_download_request = some failedRequest ∧
    failedRequest.getProgress < 0 ∧
    (∃ d1, onUpdate plainEngine (downloadingDialog (some failedRequest)) = some d1 ∧
      d1.dismiss_calls = (downloadingDialog (some failedRequest)).dismiss_calls + 1 ∧
      d1.actions_visible = false ∧
      d1.install_label = "Install" ∧
      d1.description_text = "SuperTuxKart will download full assets" ∧
      d1.message_dialogs = ["Sorry, downloading the add-on failed"]) ∧
    ¬ (∃ d1, onUpdate plainEngine (downloadingDialog (some failedRequest)) = some d1 ∧
      d1.dismiss_calls = (downloadingDialog (some failedRequest)).dismiss_calls ∧
      d1.actions_visible = true ∧
      d1.install_label = plainEngine.translate MSG_TRY_AGAIN ∧
      d1.description_text = plainEngine.translate MSG_DOWNLOAD_FAILED) := by
  refine ⟨rfl, ?_, ?_, ?_⟩
  · norm_num [failedRequest, DownloadAssetsRequest.getProgress]
  · simp [onUpdate, downloadingDialog, failedRequest, DownloadAssetsRequest.getProgress,
      DownloadAssets.dismiss, plainEngine, MSG_ADDON_FAILED]
  · simp [onUpdate, downloadingDialog, failedRequest, DownloadAssetsRequest.getProgress,
      DownloadAssets.dismiss, plainEngine, MSG_ADDON_FAILED]

/-- C2, amended: when the poll in `onUpdate` reads a negative progress from
the active request, it sets the progress bar to `progress * 99`, hides it,
dismisses the dialog and opens a message dialog with the translated text
"Sorry, downloading the add-on failed"; the visibility of the ribbon
"actions", the label of the install button and the description are left as
they were. -/
theorem onUpdate_http_failure (e : Engine) (d : DownloadAssets) (r : DownloadAssetsRequest)
    (hreq : d.m_download_request = some r) (hneg : r.getProgress < 0) :
    ∃ d1, onUpdate e d = some d1 ∧
      d1.progress_value = r.getProgress * 99 ∧
      d1.progress_visible = false ∧
      d1.dismiss_calls = d.dismiss_calls + 1 ∧
      d1.message_dialogs = e.translate MSG_ADDON_FAILED :: d.message_dialogs ∧
      d1.actions_visible = d.actions_visible ∧
      d1.install_label = d.install_label ∧
      d1.description_text = d.description_text ∧
      d1.reinit_calls = d.reinit_calls := by
  simp [onUpdate, hreq, hneg, DownloadAssets.dismiss]

/-- The poll of `onUpdate` on a request whose progress is -1. -/
theorem onUpdate_http_failure_witness :
    ∃ d1, onUpdate plainEngine (downloadingDialog (some failedRequest)) = some d1 ∧
      d1.progress_value = failedRequest.getProgress * 99 ∧
      d1.progress_visible = false ∧
      d1.dismiss_calls = 0 + 1 ∧
      d1.message_dialogs = [MSG_ADDON_FAILED] ∧
      d1.actions_visible = false ∧
      d1.install_label = "Install" ∧
      d1.description_text = "SuperTuxKart will download full assets" ∧
      d1.reinit_calls = 0 :=
  onUpdate_http_failure plainEngine (downloadingDialog (some failedRequest)) failedRequest rfl
    (by norm_num [failedRequest, DownloadAssetsRequest.getProgress])

/-- Removing a path only when it exists gives the same set of paths as
removing it. -/
theorem FileSystem.present_remove_if_exists (fs : FileSystem) (path p : String) :
    (if fs.fileExists path = true then fs.removeFile path else fs).present p
      = if p = path then false else fs.present p := by
  by_cases h : fs.fileExists path = true
  · simp [h, FileSystem.removeFile]
  · by_cases hp : p = path
    · subst hp
      have h1 : fs.present p = false := by simpa [FileSystem.fileExists] using h
      simp [h, h1]
    · simp [h, hp]

/-- The paths that exist after the destructor of a cancelled request ran. -/
theorem DownloadAssetsRequest.present_destroy_cancelled (e : Engine)
    (r : DownloadAssetsRequest) (fs : FileSystem) (hc : r.isCancelled = true) (p : String) :
    (r.destroy e fs).present p
      = if p = e.getSTKAssetsDownloadDir then false
        else if p = r.getFileName ++ ".part" then false
        else if p = r.getFileName then false
        else fs.present p := by
  simp only [DownloadAssetsRequest.destroy, hc, if_true, FileSystem.removeDirectory]
  rw [FileSystem.present_remove_if_exists, FileSystem.present_remove_if_exists]

/-- C3: on the file system as a set of existing paths, destroying a cancelled
request leaves a file system in which the zip file `getFileName()`, the
partial file `getFileName() + ".part"` and the assets download directory do
not exist, whichever of them existed before, and in which every other path is
as before; destroying a request that is not cancelled leaves the file system
unchanged. -/
theorem destroy_file_system (e : Engine) (r : DownloadAssetsRequest) (fs : FileSystem) :
    (r.isCancelled = true →
      (r.destroy e fs).fileExists r.getFileName = false ∧
      (r.destroy e fs).fileExists (r.getFileName ++ ".part") = false ∧
      (r.destroy e fs).fileExists e.getSTKAssetsDownloadDir = false ∧
      ∀ p, p ≠ r.getFileName → p ≠ r.getFileName ++ ".part" →
        p ≠ e.getSTKAssetsDownloadDir →
        (r.destroy e fs).fileExists p = fs.fileExists p) ∧
    (r.isCancelled = false → r.destroy e fs = fs) := by
  constructor
  · intro hc
    simp only [FileSystem.fileExists, DownloadAssetsRequest.present_destroy_cancelled e r fs hc]
    refine ⟨?_, ?_, ?_, ?_⟩
    · simp
    · simp
    · simp
    · intro p hp1 hp2 hp3
      simp [hp1, hp2, hp3]
  · intro hc
    simp [DownloadAssetsRequest.destroy, hc]

/-- Destroying a cancelled request removes the partial file and the download
directory and keeps `config.xml`; destroying a running request keeps the file
system. -/
theorem destroy_file_system_witness :
    ((cancelledRequest.destroy plainEngine partialDownloadFS).fileExists "stk-assets.zip.part"
        = false ∧
      (cancelledRequest.destroy plainEngine partialDownloadFS).fileExists "stk-assets" = false ∧
      (cancelledRequest.destroy plainEngine partialDownloadFS).fileExists "config.xml" = true) ∧
    runningRequest.destroy plainEngine partialDownloadFS = partialDownloadFS := by
  have h := destroy_file_system plainEngine cancelledRequest partialDownloadFS
  have h2 := destroy_file_system plainEngine runningRequest partialDownloadFS
  refine ⟨⟨(h.1 rfl).2.1, (h.1 rfl).2.2.1, ?_⟩, h2.2 rfl⟩
  rw [(h.1 rfl).2.2.2 "config.xml" (by decide) (by decide) (by decide)]
  rfl

/-- C4: `stopDownload` with an active request marks the request as memory
managed (`setManageMemory(true)`), cancels it, does not delete it (the object
stays allocated, its destructor does not run on the file system) and sets
`m_download_request` to `NULL`, changing nothing else; without an active
request it changes nothing. Hence `stopDownload` is idempotent and after it
the dialog holds no active request. -/
theorem stopDownload_spec (d : DownloadAssets) :
    (∀ r, d.m_download_request = some r →
      stopDownload d =
        { d with
          unreferenced := { r with m_manage_memory := true, m_cancel := true } :: d.unreferenced,
          m_download_request := none } ∧
      (stopDownload d).fs = d.fs) ∧
    (d.m_download_request = none → stopDownload d = d) ∧
    stopDownload (stopDownload d) = stopDownload d ∧
    (stopDownload d).m_download_request = none := by
  refine ⟨?_, ?_, ?_, ?_⟩
  · intro r hr
    simp [stopDownload, hr, DownloadAssetsRequest.setManageMemory, DownloadAssetsRequest.cancel]
  · intro hn
    simp [stopDownload, hn]
  · cases h : d.m_download_request <;> simp [stopDownload, h]
  · cases h : d.m_download_request <;> simp [stopDownload, h]

/-- Stopping a running download, and stopping when nothing is downloaded. -/
theorem stopDownload_spec_witness :
    (stopDownload (downloadingDialog (some runningRequest)) =
        { downloadingDialog (some runningRequest) with
          unreferenced := [{ runningRequest with m_manage_memory := true, m_cancel := true }],
          m_download_request := none } ∧
      (stopDownload (downloadingDialog (some runningRequest))).fs = partialDownloadFS) ∧
    stopDownload (downloadingDialog none) = downloadingDialog none :=
  ⟨(stopDownload_spec (downloadingDialog (some runningRequest))).1 runningRequest rfl,
   (stopDownload_spec (downloadingDialog none)).2.1 rfl⟩

/-- C7: with an active request whose progress is not negative, `onUpdate`
changes only the value of the progress bar, to `progress * 99`, when the
request is not done; when the request is done and had no error, it deletes
the request (the destructor runs and the object is no longer allocated), sets
`m_download_request` to `NULL`, dismisses the dialog and calls
`ExtractMobileAssets::reinit`; without an active request `onUpdate` changes
nothing. -/
theorem onUpdate_progress (e : Engine) (d : DownloadAssets) :
    (∀ r, d.m_download_request = some r → 0 ≤ r.getProgress → r.isDone = false →
      onUpdate e d = some { d with progress_value := r.getProgress * 99 }) ∧
    (∀ r, d.m_download_request = some r → 0 ≤ r.getProgress → r.isDone = true →
      r.hadError = false →
      ∃ d1, onUpdate e d = some d1 ∧
        d1.m_download_request = none ∧
        d1.fs = r.destroy e d.fs ∧
        d1.unreferenced = d.unreferenced ∧
        d1.dismiss_calls = d.dismiss_calls + 1 ∧
        d1.reinit_calls = d.reinit_calls + 1) ∧
    (d.m_download_request = none → onUpdate e d = some d) := by
  refine ⟨?_, ?_, ?_⟩
  · intro r hr hp hd
    simp [onUpdate, hr, not_lt.mpr hp, hd]
  · intro r hr hp hd herr
    simp [onUpdate, hr, not_lt.mpr hp, hd, doInstall, herr, DownloadAssets.dismiss]
  · intro hn
    simp [onUpdate, hn]

/-- The poll of `onUpdate` half way through the download, after a finished
download, and without a request. -/
theorem onUpdate_progress_witness :
    onUpdate plainEngine (downloadingDialog (some runningRequest))
      = some { downloadingDialog (some runningRequest) with
          progress_value := runningRequest.getProgress * 99 } ∧
    (∃ d1, onUpdate plainEngine (downloadingDialog (some finishedRequest)) = some d1 ∧
        d1.m_download_request = none ∧
        d1.fs = finishedRequest.destroy plainEngine partialDownloadFS ∧
        d1.unreferenced = [] ∧
        d1.dismiss_calls = 0 + 1 ∧
        d1.reinit_calls = 0 + 1) ∧
    onUpdate plainEngine (downloadingDialog none) = some (downloadingDialog none) :=
  ⟨(onUpdate_progress plainEngine (downloadingDialog (some runningRequest))).1 runningRequest rfl
      (by norm_num [runningRequest, DownloadAssetsRequest.getProgress]) rfl,
   (onUpdate_progress plainEngine (downloadingDialog (some finishedRequest))).2.1 finishedRequest
      rfl (by norm_num [finishedRequest, DownloadAssetsRequest.getProgress]) rfl rfl,
   (onUpdate_progress plainEngine (downloadingDialog none)).2.2 rfl⟩

/-- C10: a request never reports success without a successful extraction. A
newly constructed request has `hadError() = true`, and so has every request
on which `afterOperation` has not run (`m_extraction_error` still has the
value the constructor gave it). After `afterOperation` ran on such a request,
`hadError()` is false exactly when the download had no error, the request was
not cancelled and `ExtractMobileAssets::extract` returned true; a cancelled
request keeps `hadError() = true` and no extraction is attempted; for a
request that is not cancelled the extraction is attempted once, whether or
not the download failed. -/
theorem hadError_false_iff_extracted (e : Engine) (base : HTTPRequest)
    (r : DownloadAssetsRequest) (fs : FileSystem) :
    (DownloadAssetsRequest.construct base).hadError = true ∧
    (DownloadAssetsRequest.construct base).m_extraction_error = true ∧
    (r.m_extraction_error = true → r.hadError = true) ∧
    (r.m_extraction_error = true →
      ((r.afterOperation e fs).request.hadError = false ↔
        (r.afterOperation e fs).request.hadDownloadError = false ∧
        (r.afterOperation e fs).request.isCancelled = false ∧
        (e.extract (e.httpAfterOperation r.toHTTPRequest fs).1.m_filename
          e.getSTKAssetsDownloadDir (e.httpAfterOperation r.toHTTPRequest fs).2).1 = true)) ∧
    (r.m_extraction_error = true → (r.afterOperation e fs).request.isCancelled = true →
      (r.afterOperation e fs).request.hadError = true ∧
      (r.afterOperation e fs).extract_calls = []) ∧
    ((r.afterOperation e fs).request.isCancelled = false →
      (r.afterOperation e fs).extract_calls =
        [((e.httpAfterOperation r.toHTTPRequest fs).1.m_filename, e.getSTKAssetsDownloadDir)]) := by
  refine ⟨?_, rfl, ?_, ?_, ?_, ?_⟩
  · simp [DownloadAssetsRequest.construct, DownloadAssetsRequest.hadError]
  · intro h
    simp [DownloadAssetsRequest.hadError, h]
  · intro h
    by_cases hc : (e.httpAfterOperation r.toHTTPRequest fs).1.m_cancel = true
    · simp [DownloadAssetsRequest.afterOperation, DownloadAssetsRequest.isCancelled,
        DownloadAssetsRequest.hadError, DownloadAssetsRequest.hadDownloadError, hc, h]
    · simp [DownloadAssetsRequest.afterOperation, DownloadAssetsRequest.isCancelled,
        DownloadAssetsRequest.hadError, DownloadAssetsRequest.hadDownloadError,
        DownloadAssetsRequest.getFileName, hc]
  · intro h hcan
    by_cases hc : (e.httpAfterOperation r.toHTTPRequest fs).1.m_cancel = true
    · simp [DownloadAssetsRequest.afterOperation, DownloadAssetsRequest.isCancelled,
        DownloadAssetsRequest.hadError, hc, h]
    · simp [DownloadAssetsRequest.afterOperation, DownloadAssetsRequest.isCancelled, hc] at hcan
  · intro hcan
    by_cases hc : (e.httpAfterOperation r.toHTTPRequest fs).1.m_cancel = true
    · simp [DownloadAssetsRequest.afterOperation, DownloadAssetsRequest.isCancelled, hc] at hcan
    · simp [DownloadAssetsRequest.afterOperation, DownloadAssetsRequest.isCancelled,
        DownloadAssetsRequest.getFileName, hc]

/-- A request reports an error before `afterOperation`, none after a successful
extraction, an error when cancelled; extraction is attempted after a failed
download. -/
theorem hadError_false_iff_extracted_witness :
    runningRequest.hadError = true ∧
    (runningRequest.afterOperation plainEngine partialDownloadFS).request.hadError = false ∧
    (cancelledRequest.afterOperation plainEngine partialDownloadFS).request.hadError = true ∧
    (failedRequest.afterOperation plainEngine partialDownloadFS).extract_calls
      = [("stk-assets.zip", "stk-assets")] :=
  ⟨(hadError_false_iff_extracted plainEngine plainEngine.newHTTPRequest runningRequest
      partialDownloadFS).2.2.1 rfl,
   ((hadError_false_iff_extracted plainEngine plainEngine.newHTTPRequest runningRequest
      partialDownloadFS).2.2.2.1 rfl).2 ⟨rfl, rfl, rfl⟩,
   ((hadError_false_iff_extracted plainEngine plainEngine.newHTTPRequest cancelledRequest
      partialDownloadFS).2.2.2.2.1 rfl rfl).1,
   (hadError_false_iff_extracted plainEngine plainEngine.newHTTPRequest failedRequest
      partialDownloadFS).2.2.2.2.2 rfl⟩

end STK

/-! ## Theorems: the soccer AI -/

namespace STK

open SoccerAI

theorem Vec3.add_def (a b : Vec3) : a + b = ⟨a.x + b.x, a.y + b.y, a.z + b.z⟩ := rfl

theorem Vec3.sub_def (a b : Vec3) : a - b = ⟨a.x - b.x, a.y - b.y, a.z - b.z⟩ := rfl

/-- Subtracting `(n, 0, 0)` and adding `(0, 0, n)` is adding `(-n, 0, n)`. -/
theorem Vec3.sub_add_offset (v : Vec3) (n : ℚ) :
    v - ⟨n, 0, 0⟩ + ⟨0, 0, n⟩ = v + ⟨-n, 0, n⟩ := by
  simp only [Vec3.add_def, Vec3.sub_def, Vec3.mk.injEq]
  refine ⟨by ring, by ring, by ring⟩

/-- The loop keeps its invariant when it skips a kart. -/
theorem SoccerAI.LoopInv.skip {e : ArenaEngine} {ai : SoccerAI} {k c : Nat} {D : ℚ}
    {kart : AbstractKart} (hinv : LoopInv e ai k D c)
    (hget : ai.m_world.getKart k = some kart) (hne : ¬ eligible ai kart) :
    LoopInv e ai (k + 1) D c := by
  have hk : ∀ j kart1, j < k + 1 → ai.m_world.getKart j = some kart1 → eligible ai kart1 →
      j < k := by
    intro j kart1 hj hg he
    by_contra hlt
    have hjk : j = k := by omega
    subst hjk
    rw [hget] at hg
    exact hne (Option.some.inj hg ▸ he)
  rcases hinv with ⟨hc, hck, hD, hmin, htie⟩ | ⟨hD, hc, hfar⟩
  · exact Or.inl ⟨hc, by omega, hD,
      fun j kart1 hj hg he => hmin j kart1 (hk j kart1 hj hg he) hg he,
      fun j kart1 hj hg he => htie j kart1 (hk j kart1 hj hg he) hg he⟩
  · exact Or.inr ⟨hD, hc, fun j kart1 hj hg he => hfar j kart1 (hk j kart1 hj hg he) hg he⟩

/-- The loop keeps its invariant when a kart is farther than `distance`. -/
theorem SoccerAI.LoopInv.far {e : ArenaEngine} {ai : SoccerAI} {k c : Nat} {D : ℚ}
    {kart : AbstractKart} (hinv : LoopInv e ai k D c)
    (hget : ai.m_world.getKart k = some kart) (hfar : D < kartDistance e ai kart) :
    LoopInv e ai (k + 1) D c := by
  have hk : ∀ j kart1, j < k + 1 → ai.m_world.getKart j = some kart1 →
      j < k ∨ kart1 = kart := by
    intro j kart1 hj hg
    by_cases hlt : j < k
    · exact Or.inl hlt
    · have hjk : j = k := by omega
      subst hjk
      rw [hget] at hg
      exact Or.inr (Option.some.inj hg).symm
  rcases hinv with ⟨hc, hck, hD, hmin, htie⟩ | ⟨hD, hc, hnone⟩
  · refine Or.inl ⟨hc, by omega, hD, ?_, ?_⟩
    · intro j kart1 hj hg he
      rcases hk j kart1 hj hg with h | h
      · exact hmin j kart1 h hg he
      · subst h
        exact le_of_lt hfar
    · intro j kart1 hj hg he hd
      rcases hk j kart1 hj hg with h | h
      · exact htie j kart1 h hg he hd
      · subst h
        exact absurd hd (ne_of_gt hfar)
  · refine Or.inr ⟨hD, hc, ?_⟩
    intro j kart1 hj hg he
    rcases hk j kart1 hj hg with h | h
    · exact hnone j kart1 h hg he
    · subst h
      rw [← hD]
      exact hfar

/-- The loop keeps its invariant when it takes a kart. -/
theorem SoccerAI.LoopInv.take {e : ArenaEngine} {ai : SoccerAI} {k c : Nat} {D : ℚ}
    {kart : AbstractKart} (hinv : LoopInv e ai k D c)
    (hget : ai.m_world.getKart k = some kart) (hel : eligible ai kart)
    (hle : kartDistance e ai kart ≤ D) :
    LoopInv e ai (k + 1) (kartDistance e ai kart) k := by
  have hk : ∀ j kart1, j < k + 1 → ai.m_world.getKart j = some kart1 →
      j < k ∨ kart1 = kart := by
    intro j kart1 hj hg
    by_cases hlt : j < k
    · exact Or.inl hlt
    · have hjk : j = k := by omega
      subst hjk
      rw [hget] at hg
      exact Or.inr (Option.some.inj hg).symm
  have hDM : D ≤ 999999 / 10 := by
    rcases hinv with ⟨_, _, hD, _, _⟩ | ⟨hD, _, _⟩
    · exact hD
    · exact le_of_eq hD
  refine Or.inl ⟨⟨kart, hget, hel, rfl⟩, by omega, le_trans hle hDM, ?_, ?_⟩
  · intro j kart1 hj hg he
    rcases hk j kart1 hj hg with h | h
    · rcases hinv with ⟨_, _, _, hmin, _⟩ | ⟨hD, _, hnone⟩
      · exact le_trans hle (hmin j kart1 h hg he)
      · exact le_trans (le_trans hle hDM) (le_of_lt (hnone j kart1 h hg he))
    · subst h
      exact le_refl _
  · intro j kart1 hj _ _ _
    omega

/-- Running the loop of `findClosestKart` over the karts that are left
carries the invariant to the end of the list of karts. -/
theorem SoccerAI.findClosestKartLoop_inv (e : ArenaEngine) (ai : SoccerAI) :
    ∀ (rest pre : List AbstractKart) (D : ℚ) (c : Nat),
      ai.m_world.karts = pre ++ rest → LoopInv e ai pre.length D c →
      LoopInv e ai ai.m_world.karts.length
        (findClosestKartLoop e ai rest pre.length D c).1
        (findClosestKartLoop e ai rest pre.length D c).2 := by
  intro rest
  induction rest with
  | nil =>
    intro pre D c hk hinv
    have hlen : ai.m_world.karts.length = pre.length := by rw [hk]; simp
    rw [hlen]
    simpa [findClosestKartLoop] using hinv
  | cons kart rest ih =>
    intro pre D c hk hinv
    have hk1 : ai.m_world.karts = (pre ++ [kart]) ++ rest := by rw [hk]; simp
    have hlen : (pre ++ [kart]).length = pre.length + 1 := by simp
    have hget : ai.m_world.getKart pre.length = some kart := by
      rw [SoccerWorld.getKart, hk, List.getElem?_append_right (le_refl _)]
      simp
    have ih1 := ih (pre ++ [kart])
    rw [hlen] at ih1
    unfold findClosestKartLoop
    by_cases h1 : kart.isEliminated = true
    · rw [if_pos h1]
      exact ih1 D c hk1 (hinv.skip hget (fun he => by simp [he.1] at h1))
    · rw [if_neg h1]
      by_cases h2 : kart.getWorldKartId = ai.m_kart.getWorldKartId
      · rw [if_pos h2]
        exact ih1 D c hk1 (hinv.skip hget (fun he => he.2.1 h2))
      · rw [if_neg h2]
        by_cases h3 : ai.m_world.getKartTeam kart.getWorldKartId
            = ai.m_world.getKartTeam ai.m_kart.getWorldKartId
        · rw [if_pos h3]
          exact ih1 D c hk1 (hinv.skip hget (fun he => he.2.2 h3))
        · rw [if_neg h3]
          have hel : eligible ai kart := ⟨by simpa using h1, h2, h3⟩
          by_cases h4 : e.length_2d (kart.getXYZ - ai.m_kart.getXYZ) ≤ D
          · simp only [h4, if_true]
            exact ih1 _ _ hk1 (hinv.take hget hel h4)
          · simp only [h4, if_false]
            exact ih1 D c hk1 (hinv.far hget (not_le.mp h4))

/-- When some kart that is not skipped lies within 99999.9, the index the loop
of `findClosestKart` ends with is that of a kart that is not skipped, at the
least distance among such karts, and the highest such index. -/
theorem SoccerAI.closestKartNum_spec (e : ArenaEngine) (ai : SoccerAI)
    (h : ∃ j kart, ai.m_world.getKart j = some kart ∧ eligible ai kart ∧
      kartDistance e ai kart ≤ 999999 / 10) :
    ∃ closest, ai.m_world.getKart (closestKartNum e ai) = some closest ∧
      eligible ai closest ∧
      (∀ j kart, ai.m_world.getKart j = some kart → eligible ai kart →
        kartDistance e ai closest ≤ kartDistance e ai kart) ∧
      (∀ j kart, ai.m_world.getKart j = some kart → eligible ai kart →
        kartDistance e ai kart = kartDistance e ai closest → j ≤ closestKartNum e ai) := by
  have hinit : LoopInv e ai ([] : List AbstractKart).length (999999 / 10) 0 :=
    Or.inr ⟨rfl, rfl, fun j kart hj => absurd hj (Nat.not_lt_zero j)⟩
  have hend := findClosestKartLoop_inv e ai ai.m_world.karts [] (999999 / 10) 0 (by simp) hinit
  have hlt : ∀ j kart, ai.m_world.getKart j = some kart → j < ai.m_world.karts.length := by
    intro j kart hg
    by_contra hn
    have : ai.m_world.karts[j]? = none := List.getElem?_eq_none (not_lt.mp hn)
    simp [SoccerWorld.getKart, this] at hg
  rcases hend with ⟨⟨closest, hg, hel, hd⟩, _, _, hmin, htie⟩ | ⟨_, _, hnone⟩
  · refine ⟨closest, hg, hel, ?_, ?_⟩
    · intro j kart hgj hej
      rw [hd]
      exact hmin j kart (hlt j kart hgj) hgj hej
    · intro j kart hgj hej hdj
      exact htie j kart (hlt j kart hgj) hgj hej (hdj.trans hd)
  · obtain ⟨j, kart, hgj, hej, hdj⟩ := h
    exact absurd hdj (not_le.mpr (hnone j kart (hlt j kart hgj) hgj hej))

/-- C5: `findTarget` calls `collectItemInArena`, and takes the target it
gives, if and only if the 2D distance from the kart to the ball is greater
than 10, the kart holds `POWERUP_NOTHING` and its attachment is not
`ATTACH_SWATTER`; in every other case `collectItemInArena` is not called, the
target node is the node of the ball and the target point is
`correctBallPosition` of the ball position. -/
theorem findTarget_choice (e : ArenaEngine) (ai : SoccerAI) :
    ((findTarget e ai).collect_item_calls = ai.collect_item_calls + 1 ↔
      (10 < e.length_2d (ai.m_world.getBallPosition - ai.m_kart.getXYZ) ∧
        ai.m_kart.powerupType = e.POWERUP_NOTHING ∧
        ai.m_kart.attachmentType ≠ e.ATTACH_SWATTER)) ∧
    ((10 < e.length_2d (ai.m_world.getBallPosition - ai.m_kart.getXYZ) ∧
        ai.m_kart.powerupType = e.POWERUP_NOTHING ∧
        ai.m_kart.attachmentType ≠ e.ATTACH_SWATTER) →
      (findTarget e ai).m_target_point = (e.collectItemInArena ai).1 ∧
      (findTarget e ai).m_target_node = (e.collectItemInArena ai).2) ∧
    (¬ (10 < e.length_2d (ai.m_world.getBallPosition - ai.m_kart.getXYZ) ∧
        ai.m_kart.powerupType = e.POWERUP_NOTHING ∧
        ai.m_kart.attachmentType ≠ e.ATTACH_SWATTER) →
      (findTarget e ai).collect_item_calls = ai.collect_item_calls ∧
      (findTarget e ai).m_target_node = ai.m_world.getBallNode ∧
      (findTarget e ai).m_target_point
        = correctBallPosition e ai ai.m_world.getBallPosition) := by
  by_cases h : 10 < e.length_2d (ai.m_world.getBallPosition - ai.m_kart.getXYZ) ∧
      ai.m_kart.powerupType = e.POWERUP_NOTHING ∧
      ai.m_kart.attachmentType ≠ e.ATTACH_SWATTER
  · refine ⟨?_, ?_, fun hn => absurd h hn⟩
    · rw [findTarget, if_pos h]
      simp [h]
    · intro _
      rw [findTarget, if_pos h]
      exact ⟨rfl, rfl⟩
  · refine ⟨?_, fun hp => absurd hp h, ?_⟩
    · rw [findTarget, if_neg h]
      simp [h]
    · intro _
      rw [findTarget, if_neg h]
      exact ⟨rfl, rfl, rfl⟩

/-- Twenty away from the ball the kart goes for an item; eight away it goes
for the ball. -/
theorem findTarget_choice_witness :
    (findTarget axisEngine (controllerOf (kartAt 0 0) oneTeamWorld)).m_target_point
        = (axisEngine.collectItemInArena (controllerOf (kartAt 0 0) oneTeamWorld)).1 ∧
    (findTarget axisEngine (controllerOf (kartAt 0 12) oneTeamWorld)).m_target_node = 7 := by
  have h1 := (findTarget_choice axisEngine (controllerOf (kartAt 0 0) oneTeamWorld)).2.1
  have h2 := (findTarget_choice axisEngine (controllerOf (kartAt 0 12) oneTeamWorld)).2.2
  refine ⟨(h1 ?_).1, (h2 ?_).2.1⟩
  · simp [axisEngine, controllerOf, kartAt, oneTeamWorld, Vec3.sub_def]
    norm_num
  · simp [axisEngine, controllerOf, kartAt, oneTeamWorld, Vec3.sub_def]
    norm_num

/-- C6: `correctBallPosition` is the case definition of the specification:
with the goal of team `!m_cur_team` behind the kart, the kart transform of
`ball_lc + (2,0,2)` when the goal is on the side and of `ball_lc + (-2,0,2)`
otherwise; else, with the ball nearer than 3, not behind, and the goal angle
at least 0.5, the kart transform of `ball_lc + (1,0,1)` when the goal is on
the side and of `ball_lc + (-1,0,1)` otherwise; in every other case the
original ball position. With the goal behind, the result is not the raw ball
position, the kart transform being one-to-one and taking `ball_lc` to the
ball position. -/
theorem correctBallPosition_eq_spec (e : ArenaEngine) (ai : SoccerAI) (orig_pos : Vec3) :
    correctBallPosition e ai orig_pos = correctBallPositionSpec e ai orig_pos ∧
    ((e.checkPosition ai.m_kart
        (e.getNavPolyCenter (ai.m_world.getGoalNode (!ai.m_cur_team)))).1.behind = true →
      Function.Injective (e.getTrans ai.m_kart) →
      e.getTrans ai.m_kart (e.checkPosition ai.m_kart orig_pos).2 = orig_pos →
      correctBallPosition e ai orig_pos ≠ orig_pos) := by
  have heq : correctBallPosition e ai orig_pos = correctBallPositionSpec e ai orig_pos := by
    simp only [correctBallPosition, correctBallPositionSpec, Vec3.sub_add_offset]
    by_cases hb : (e.checkPosition ai.m_kart
        (e.getNavPolyCenter (ai.m_world.getGoalNode (!ai.m_cur_team)))).1.behind = true
    · by_cases hs : (e.checkPosition ai.m_kart
          (e.getNavPolyCenter (ai.m_world.getGoalNode (!ai.m_cur_team)))).1.on_side = true
      · simp [hb, hs]
      · simp [hb, hs]
    · by_cases hd : (e.checkPosition ai.m_kart orig_pos).1.distance < 3
      · by_cases hbb : (e.checkPosition ai.m_kart orig_pos).1.behind = true
        · simp [hb, hd, hbb]
        · by_cases ha : (e.checkPosition ai.m_kart
              (e.getNavPolyCenter (ai.m_world.getGoalNode (!ai.m_cur_team)))).1.angle < 2⁻¹
          · simp [hb, hd, hbb, ha, not_le.mpr ha]
          · by_cases hs : (e.checkPosition ai.m_kart
                (e.getNavPolyCenter (ai.m_world.getGoalNode (!ai.m_cur_team)))).1.on_side = true
            · simp [hb, hd, hbb, ha, hs, not_lt.mp ha]
            · simp [hb, hd, hbb, ha, hs, not_lt.mp ha]
      · simp [hb, hd]
  refine ⟨heq, ?_⟩
  intro hb hinj hlc hres
  rw [heq] at hres
  simp only [correctBallPositionSpec, hb, if_true] at hres
  by_cases hs : (e.checkPosition ai.m_kart
      (e.getNavPolyCenter (ai.m_world.getGoalNode (!ai.m_cur_team)))).1.on_side = true
  · rw [if_pos hs] at hres
    have h := congrArg Vec3.z (hinj (hres.trans hlc.symm))
    simp only [Vec3.add_def] at h
    linarith
  · rw [if_neg hs] at hres
    have h := congrArg Vec3.z (hinj (hres.trans hlc.symm))
    simp only [Vec3.add_def] at h
    linarith

/-- With the opposing goal behind the kart the ball position is corrected. -/
theorem correctBallPosition_eq_spec_witness :
    correctBallPosition axisEngine (controllerOf (kartAt 0 0) oneTeamWorld) ⟨20, 0, 0⟩
      ≠ ⟨20, 0, 0⟩ := by
  refine (correctBallPosition_eq_spec axisEngine (controllerOf (kartAt 0 0) oneTeamWorld)
    ⟨20, 0, 0⟩).2 ?_ ?_ ?_
  · simp [axisEngine, controllerOf, kartAt, oneTeamWorld, Vec3.sub_def]
  · intro a b hab
    simp only [axisEngine, controllerOf, kartAt, Vec3.add_def, Vec3.mk.injEq] at hab
    cases a
    cases b
    simp only [Vec3.mk.injEq]
    exact ⟨by linarith [hab.1], by linarith [hab.2.1], by linarith [hab.2.2]⟩
  · simp [axisEngine, controllerOf, kartAt, Vec3.add_def, Vec3.sub_def]

/-- What `findClosestKart` returns, given the kart at the index the loop ends
with. -/
theorem SoccerAI.findClosestKart_of_getKart (e : ArenaEngine) (ai : SoccerAI)
    (use_difficulty : Bool) (closest : AbstractKart)
    (hg : ai.m_world.getKart (closestKartNum e ai) = some closest) :
    findClosestKart e ai use_difficulty = some { ai with
      m_closest_kart_node := ai.m_world.getKartNode (closestKartNum e ai),
      m_closest_kart_point := closest.getXYZ,
      m_closest_kart := some closest,
      m_closest_kart_pos_data := (e.checkPosition ai.m_kart closest.getXYZ).1 } := by
  simp only [findClosestKart, hg]

/-- C8, as stated, fails: in a world whose two karts are both of team 0 no
kart passes the three tests of the loop, `closest_kart_num` keeps its initial
value 0, and the controller of kart 0 stores its own kart as
`m_closest_kart`. -/
theorem findClosestKart_stores_own_kart :
    ∃ ai1 closest,
      findClosestKart axisEngine (controllerOf (kartAt 0 0) oneTeamWorld) false = some ai1 ∧
      ai1.m_closest_kart = some closest ∧
      closest.getWorldKartId = (controllerOf (kartAt 0 0) oneTeamWorld).m_kart.getWorldKartId ∧
      oneTeamWorld.getKartTeam closest.getWorldKartId
        = oneTeamWorld.getKartTeam
            (controllerOf (kartAt 0 0) oneTeamWorld).m_kart.getWorldKartId := by
  have hg : (controllerOf (kartAt 0 0) oneTeamWorld).m_world.getKart
      (closestKartNum axisEngine (controllerOf (kartAt 0 0) oneTeamWorld))
        = some (kartAt 0 0) := by
    simp [closestKartNum, findClosestKartLoop, controllerOf, oneTeamWorld,
      SoccerWorld.getKart, kartAt]
  exact ⟨_, kartAt 0 0, findClosestKart_of_getKart axisEngine _ false _ hg, rfl, rfl, rfl⟩

/-- C8, amended: in every world state in which at least one kart that is not
eliminated, not the AI's own kart and not of the AI's team lies within 2D
distance 99999.9 of the AI's kart, `findClosestKart` returns and the kart it
stores as `m_closest_kart` is not the AI's own kart and is not of the AI's
team. -/
theorem findClosestKart_not_own_team (e : ArenaEngine) (ai : SoccerAI) (use_difficulty : Bool)
    (h : ∃ j kart, ai.m_world.getKart j = some kart ∧ eligible ai kart ∧
      kartDistance e ai kart ≤ 999999 / 10) :
    ∃ ai1 closest, findClosestKart e ai use_difficulty = some ai1 ∧
      ai1.m_closest_kart = some closest ∧
      closest.getWorldKartId ≠ ai.m_kart.getWorldKartId ∧
      ai.m_world.getKartTeam closest.getWorldKartId
        ≠ ai.m_world.getKartTeam ai.m_kart.getWorldKartId := by
  obtain ⟨closest, hg, hel, _, _⟩ := closestKartNum_spec e ai h
  exact ⟨_, closest, findClosestKart_of_getKart e ai use_difficulty closest hg, rfl,
    hel.2.1, hel.2.2⟩

/-- C9: in every world state in which at least one kart that is not
eliminated, not the AI's own kart and of the other team lies within 2D
distance 99999.9 of the AI's kart, `findClosestKart` returns having selected
such a kart whose 2D distance to the AI's kart is the least among all such
karts, and of those at that least distance the one with the highest index;
`m_closest_kart`, `m_closest_kart_node` and `m_closest_kart_point` are the
kart at the selected index, the node of that index and the position of that
kart. -/
theorem findClosestKart_selects_closest (e : ArenaEngine) (ai : SoccerAI)
    (use_difficulty : Bool)
    (h : ∃ j kart, ai.m_world.getKart j = some kart ∧ eligible ai kart ∧
      kartDistance e ai kart ≤ 999999 / 10) :
    ∃ ai1 closest, findClosestKart e ai use_difficulty = some ai1 ∧
      ai.m_world.getKart (closestKartNum e ai) = some closest ∧
      eligible ai closest ∧
      (∀ j kart, ai.m_world.getKart j = some kart → eligible ai kart →
        kartDistance e ai closest ≤ kartDistance e ai kart) ∧
      (∀ j kart, ai.m_world.getKart j = some kart → eligible ai kart →
        kartDistance e ai kart = kartDistance e ai closest → j ≤ closestKartNum e ai) ∧
      ai1.m_closest_kart = some closest ∧
      ai1.m_closest_kart_node = ai.m_world.getKartNode (closestKartNum e ai) ∧
      ai1.m_closest_kart_point = closest.getXYZ := by
  obtain ⟨closest, hg, hel, hmin, htie⟩ := closestKartNum_spec e ai h
  exact ⟨_, closest, findClosestKart_of_getKart e ai use_difficulty closest hg, hg, hel,
    hmin, htie, rfl, rfl, rfl⟩

/-- In the world of six karts, kart 1 is not skipped by the controller of
kart 0 and is 5 away. -/
theorem sixKartWorld_has_opponent :
    ∃ j kart, (controllerOf (kartAt 0 0) sixKartWorld).m_world.getKart j = some kart ∧
      eligible (controllerOf (kartAt 0 0) sixKartWorld) kart ∧
      kartDistance axisEngine (controllerOf (kartAt 0 0) sixKartWorld) kart ≤ 999999 / 10 := by
  refine ⟨1, kartAt 1 5, rfl, ⟨rfl, by decide, by decide⟩, ?_⟩
  simp [kartDistance, axisEngine, controllerOf, kartAt, Vec3.sub_def]
  norm_num

/-- In the world of six karts the kart stored for kart 0 is an opponent. -/
theorem findClosestKart_not_own_team_witness :
    ∃ ai1 closest,
      findClosestKart axisEngine (controllerOf (kartAt 0 0) sixKartWorld) false = some ai1 ∧
      ai1.m_closest_kart = some closest ∧
      closest.getWorldKartId ≠ (controllerOf (kartAt 0 0) sixKartWorld).m_kart.getWorldKartId ∧
      (controllerOf (kartAt 0 0) sixKartWorld).m_world.getKartTeam closest.getWorldKartId
        ≠ (controllerOf (kartAt 0 0) sixKartWorld).m_world.getKartTeam
            (controllerOf (kartAt 0 0) sixKartWorld).m_kart.getWorldKartId :=
  findClosestKart_not_own_team axisEngine (controllerOf (kartAt 0 0) sixKartWorld) false
    sixKartWorld_has_opponent

/-- In the world of six karts the controller of kart 0 selects kart 3, the
later of the two nearest opponents. -/
theorem findClosestKart_selects_closest_witness :
    closestKartNum axisEngine (controllerOf (kartAt 0 0) sixKartWorld) = 3 ∧
    ∃ ai1 closest,
      findClosestKart axisEngine (controllerOf (kartAt 0 0) sixKartWorld) false = some ai1 ∧
      (controllerOf (kartAt 0 0) sixKartWorld).m_world.getKart
        (closestKartNum axisEngine (controllerOf (kartAt 0 0) sixKartWorld)) = some closest ∧
      eligible (controllerOf (kartAt 0 0) sixKartWorld) closest ∧
      (∀ j kart, (controllerOf (kartAt 0 0) sixKartWorld).m_world.getKart j = some kart →
        eligible (controllerOf (kartAt 0 0) sixKartWorld) kart →
        kartDistance axisEngine (controllerOf (kartAt 0 0) sixKartWorld) closest
          ≤ kartDistance axisEngine (controllerOf (kartAt 0 0) sixKartWorld) kart) ∧
      (∀ j kart, (controllerOf (kartAt 0 0) sixKartWorld).m_world.getKart j = some kart →
        eligible (controllerOf (kartAt 0 0) sixKartWorld) kart →
        kartDistance axisEngine (controllerOf (kartAt 0 0) sixKartWorld) kart
          = kartDistance axisEngine (controllerOf (kartAt 0 0) sixKartWorld) closest →
        j ≤ closestKartNum axisEngine (controllerOf (kartAt 0 0) sixKartWorld)) ∧
      ai1.m_closest_kart = some closest ∧
      ai1.m_closest_kart_node
        = (controllerOf (kartAt 0 0) sixKartWorld).m_world.getKartNode
            (closestKartNum axisEngine (controllerOf (kartAt 0 0) sixKartWorld)) ∧
      ai1.m_closest_kart_point = closest.getXYZ := by
  refine ⟨?_, findClosestKart_selects_closest axisEngine
    (controllerOf (kartAt 0 0) sixKartWorld) false sixKartWorld_has_opponent⟩
  simp [closestKartNum, findClosestKartLoop, axisEngine, controllerOf, sixKartWorld, kartAt,
    Vec3.sub_def]
  norm_num

end STK
